import Mathlib

/-!
Shallow embedding of `src/main.py` of the archlinux-cleaner tool, together
with theorems settling the specification claims.

Modelling conventions:
* Python strings are Lean `String`s (sequences of code points); the helpers
  `pyStrip`, `pyLower`, `pySplitlines`, `pySplit` model `str.strip()`,
  `str.lower()`, `str.splitlines()` and `str.split(";")`.  `strip`/`lower`
  are modelled on the ASCII range, which covers every input the program
  feeds them.
* A spawned subprocess is modelled by the `CompletedProcess` value the
  operating system would hand back (return code, stdout, stderr); the
  embedded functions take these as explicit inputs.
* `sys.exit`, uncaught exceptions and `KeyboardInterrupt` are modelled by
  the `PyExit` outcome type; printing and subprocess spawning are tracked
  by the `PResult` writer structure.
-/

namespace ArchCleaner

/-- Whitespace recognised by Python `str.strip()` (ASCII range). -/
def isPySpace (c : Char) : Bool :=
  c = ' ' || c = '\t' || c = '\n' || c = '\x0d' || c = '\x0b' || c = '\x0c'

/-- `str.lower()` on one character (ASCII range). -/
def lowerChar (c : Char) : Char :=
  if 'A' ≤ c && c ≤ 'Z' then Char.ofNat (c.toNat + 32) else c

/-- `str.lower()` (ASCII range). -/
def pyLower (s : String) : String :=
  String.mk (s.data.map lowerChar)

/-- Drop leading whitespace, as in `str.lstrip()`. -/
def lstripL (l : List Char) : List Char :=
  l.dropWhile isPySpace

/-- Drop trailing whitespace, as in `str.rstrip()`. -/
def rstripL (l : List Char) : List Char :=
  (l.reverse.dropWhile isPySpace).reverse

/-- `str.strip()` on a character list. -/
def pyStripL (l : List Char) : List Char :=
  rstripL (lstripL l)

/-- `str.strip()`. -/
def pyStrip (s : String) : String :=
  String.mk (pyStripL s.data)

/-- Line boundaries recognised by Python `str.splitlines()`. -/
def isLineBreak (c : Char) : Bool :=
  c = '\n' || c = '\x0d' || c = '\x0b' || c = '\x0c' ||
  c = '\x1c' || c = '\x1d' || c = '\x1e' || c = '\x85' || c = '\u2028' || c = '\u2029'

/-- Worker for `str.splitlines()`: `cur` holds the current line reversed. -/
def splitlinesAux (cur : List Char) : List Char → List String
  | [] => if cur.isEmpty then [] else [String.mk cur.reverse]
  | '\x0d' :: '\n' :: cs => String.mk cur.reverse :: splitlinesAux [] cs
  | c :: cs =>
    if isLineBreak c then String.mk cur.reverse :: splitlinesAux [] cs
    else splitlinesAux (c :: cur) cs

/-- Python `str.splitlines()` (no trailing empty line). -/
def pySplitlines (s : String) : List String :=
  splitlinesAux [] s.data

/-- Worker for `str.split(";")`: `cur` holds the current field reversed. -/
def splitSemiAux (cur : List Char) : List Char → List String
  | [] => [String.mk cur.reverse]
  | c :: cs =>
    if c = ';' then String.mk cur.reverse :: splitSemiAux [] cs
    else splitSemiAux (c :: cur) cs

/-- Python `line.split(";")`. -/
def pySplit (s : String) : List String :=
  splitSemiAux [] s.data

/-- Python string `<` on the underlying code-point sequences (lexicographic). -/
def strLtB : List Char → List Char → Bool
  | [], [] => false
  | [], _ :: _ => true
  | _ :: _, [] => false
  | a :: as, b :: bs => a < b || (a = b && strLtB as bs)

/-- `datetime.date`: a calendar date. -/
structure Date where
  year : Nat
  month : Nat
  day : Nat
deriving DecidableEq

/-- Gregorian leap-year test, as used by `datetime.date`. -/
def isLeap (y : Nat) : Bool :=
  y % 4 = 0 && (y % 100 ≠ 0 || y % 400 = 0)

/-- Days in a month of a given year, as used by `datetime.date`. -/
def daysInMonth (y m : Nat) : Nat :=
  if m = 2 then (if isLeap y then 29 else 28)
  else if m = 4 || m = 6 || m = 9 || m = 11 then 30
  else 31

/-- Numeric value of a decimal digit character. -/
def digitVal (c : Char) : Nat := c.toNat - 48

/-- `datetime.date.fromisoformat`: parses a `YYYY-MM-DD` calendar date,
returning `none` (a `ValueError` in Python) on any malformed or
out-of-range input. -/
def fromisoformat (s : String) : Option Date :=
  match s.data with
  | [y1, y2, y3, y4, '-', m1, m2, '-', d1, d2] =>
    if y1.isDigit && y2.isDigit && y3.isDigit && y4.isDigit &&
       m1.isDigit && m2.isDigit && d1.isDigit && d2.isDigit then
      let y := 1000 * digitVal y1 + 100 * digitVal y2 + 10 * digitVal y3 + digitVal y4
      let m := 10 * digitVal m1 + digitVal m2
      let d := 10 * digitVal d1 + digitVal d2
      if 1 ≤ y && 1 ≤ m && m ≤ 12 && 1 ≤ d && d ≤ daysInMonth y m then
        some ⟨y, m, d⟩
      else none
    else none
  | _ => none

/-- A parsed package record `(name, description, install date)`. -/
abbrev Record := String × String × Date

/-- The two `ValueError` shapes `to_obj` can raise. -/
inductive ParseErr where
  | unpack
  | badDate
deriving DecidableEq

/-- `to_obj(line)`: split on `";"` into exactly three fields (unpacking
raises otherwise) and parse the third as an ISO date. -/
def to_obj (line : String) : Except ParseErr Record :=
  match pySplit line with
  | [pk, desc, d] =>
    match fromisoformat d with
    | some dt => Except.ok (pk, desc, dt)
    | none => Except.error ParseErr.badDate
  | _ => Except.error ParseErr.unpack

/-- Result of an external command, as `subprocess` reports it. -/
structure CompletedProcess where
  returncode : Int
  stdout : String
  stderr : String
deriving DecidableEq

/-- How the embedded program can stop early: `sys.exit(code)`, an uncaught
exception (Python then exits with status 1), or `KeyboardInterrupt`. -/
inductive PyExit where
  | sysExit (code : Nat)
  | uncaught
  | interrupt
deriving DecidableEq

instance {ε α : Type} [DecidableEq ε] [DecidableEq α] : DecidableEq (Except ε α) := fun x y =>
  match x, y with
  | Except.ok a, Except.ok b =>
    if h : a = b then isTrue (by rw [h])
    else isFalse (fun he => h (by cases he; rfl))
  | Except.ok _, Except.error _ => isFalse (fun he => by cases he)
  | Except.error _, Except.ok _ => isFalse (fun he => by cases he)
  | Except.error e, Except.error f =>
    if h : e = f then isTrue (by rw [h])
    else isFalse (fun he => h (by cases he; rfl))

/-- Computation result: printed lines, number of subprocesses spawned, and
the value or early exit. -/
structure PResult (α : Type) where
  out : List String
  spawns : Nat
  res : Except PyExit α

/-- Sequencing of effectful steps: output and spawn counts accumulate, an
early exit stops the chain. -/
def PResult.bind {α β : Type} (x : PResult α) (f : α → PResult β) : PResult β :=
  match x.res with
  | Except.error e => ⟨x.out, x.spawns, Except.error e⟩
  | Except.ok a => ⟨x.out ++ (f a).out, x.spawns + (f a).spawns, (f a).res⟩

instance : Monad PResult where
  pure a := ⟨[], 0, Except.ok a⟩
  bind := PResult.bind

/-- `print(...)`: emit lines (a printed argument with an embedded newline
contributes one line per segment). -/
def emit (lines : List String) : PResult Unit :=
  ⟨lines, 0, Except.ok ()⟩

/-- Output of `fail(msg)` before it calls `sys.exit(1)`. -/
def failMsg (msg : String) : String :=
  "[error] " ++ msg

/-- `' '.join(cmd)` where `cmd` is a string: its characters joined by
spaces, as in the `fail` call inside `run`. -/
def spaceJoinChars (cmd : String) : String :=
  String.mk (cmd.data.intersperse ' ')

/-- `run(cmd)`: spawns one subprocess whose outcome is `r`.  Because of
`check=True`, a non-zero return code raises `CalledProcessError`, which the
handler turns into printing the stripped stderr and `fail(...)`, i.e.
`sys.exit(1)`.  On success the completed process is returned. -/
def run (cmd : String) (r : CompletedProcess) : PResult CompletedProcess :=
  if r.returncode ≠ 0 then
    ⟨[pyStrip r.stderr, failMsg ("command failed: " ++ spaceJoinChars cmd)], 1,
      Except.error (PyExit.sysExit 1)⟩
  else
    ⟨[], 1, Except.ok r⟩

/-- `[to_obj(l) for l in s.strip().splitlines()]`; a `ValueError` from
`to_obj` propagates uncaught. -/
def parseAll (s : String) : PResult (List Record) :=
  match (pySplitlines (pyStrip s)).mapM to_obj with
  | Except.ok recs => ⟨[], 0, Except.ok recs⟩
  | Except.error _ => ⟨[], 0, Except.error PyExit.uncaught⟩

/-- `ensure_arch_like()`: fatal `fail` if `pacman` or `expac` is not on the
path. -/
def ensure_arch_like (pacmanOnPath expacOnPath : Bool) : PResult Unit :=
  if !pacmanOnPath then
    ⟨[failMsg "pacman not found. This script is for Arch Linux and derivatives."],
      0, Except.error (PyExit.sysExit 1)⟩
  else if !expacOnPath then
    ⟨[failMsg "expac not found. It shoud be installed as a mandatory dependency."],
      0, Except.error (PyExit.sysExit 1)⟩
  else
    ⟨[], 0, Except.ok ()⟩

/-- `list_explicit_packages()`: run the native and foreign queries (whose
subprocess outcomes are `rn` and `rf`) and parse their output lines. -/
def list_explicit_packages (rn rf : CompletedProcess) :
    PResult (List Record × List Record) := do
  let pn ← run "pacman -Qqen" rn
  let native ← parseAll pn.stdout
  let pf ← run "pacman -Qqem" rf
  let foreign ← parseAll pf.stdout
  pure (native, foreign)

/-- `list_orphans()`: run the orphan query (subprocess outcome `r`); the
source then tests `proc.returncode != 0` and returns `[]` in that case,
otherwise parses the output lines. -/
def list_orphans (r : CompletedProcess) : PResult (List Record) := do
  let proc ← run "pacman -Qqtd" r
  if proc.returncode ≠ 0 then
    pure []
  else
    parseAll proc.stdout

/-- `confirm(prompt)`: `none` models `EOFError` on `input()`; otherwise the
answer is stripped, lowercased and tested for membership in
`{"y", "yes", "o", "oui"}`. -/
def confirm (ans : Option String) : Bool :=
  match ans with
  | none => false
  | some s => ["y", "yes", "o", "oui"].contains (pyLower (pyStrip s))

/-- `remove_orphans(pkgs)`: no-op message for an empty list; otherwise
build the removal command, escalate with sudo when not root (fatal when
sudo is missing), announce, and `run` it (outcome `removal`). -/
def remove_orphans (euid : Nat) (sudoPath : Option String)
    (removal : CompletedProcess) (pkgs : List String) : PResult Unit :=
  if pkgs.isEmpty then
    emit ["No orphan packages to remove."]
  else
    let base := "pacman -Rns --noconfirm " ++ String.intercalate " " pkgs
    (if euid ≠ 0 then
      match sudoPath with
      | some sp => pure (sp ++ " " ++ base)
      | none =>
        (⟨[failMsg "insufficient privileges and 'sudo' not found. Please run as root."],
          0, Except.error (PyExit.sysExit 1)⟩ : PResult String)
    else
      pure base) >>= fun cmd =>
    emit ["", "Removing orphan packages:", "  " ++ String.intercalate " " pkgs, ""] >>= fun _ =>
    run cmd removal >>= fun _ =>
    pure ()

/-- ANSI colour codes from the `BColors` holder (the ones `print_list`
uses). -/
def BColors.OKCYAN : String := "\x1b[96m"

/-- ANSI bright-green code. -/
def BColors.OKGREEN : String := "\x1b[92m"

/-- ANSI reset code. -/
def BColors.ENDC : String := "\x1b[0m"

/-- ANSI bold code. -/
def BColors.BOLD : String := "\x1b[1m"

/-- `f"{i:3d}"`: decimal, right-aligned in a field of width 3. -/
def padNum3 (i : Nat) : String :=
  let s := toString i
  String.mk (List.replicate (3 - s.length) ' ') ++ s

/-- `f"{s:50}"`: left-aligned in a field of width 50. -/
def padTo50 (s : String) : String :=
  s ++ String.mk (List.replicate (50 - s.length) ' ')

/-- Zero-pad a number to a given width, as `strftime` does. -/
def zeroPad (w n : Nat) : String :=
  let s := toString n
  String.mk (List.replicate (w - s.length) '0') ++ s

/-- Abbreviated month names used by `strftime("%b")` in the C locale. -/
def monthAbbr (m : Nat) : String :=
  (["Jan", "Feb", "Mar", "Apr", "May", "Jun",
    "Jul", "Aug", "Sep", "Oct", "Nov", "Dec"]).getD (m - 1) ""

/-- `date.strftime("%d %b. %Y")`. -/
def strftimeDMY (d : Date) : String :=
  zeroPad 2 d.day ++ " " ++ monthAbbr d.month ++ ". " ++ zeroPad 4 d.year

/-- Python `date` comparison: lexicographic on (year, month, day). -/
def dateLtB (a b : Date) : Bool :=
  a.year < b.year ||
  (a.year = b.year && (a.month < b.month ||
    (a.month = b.month && a.day < b.day)))

/-- Python tuple `<` on records: name, then description, then date. -/
def recLtB (x y : Record) : Bool :=
  strLtB x.1.data y.1.data ||
  (x.1 = y.1 && (strLtB x.2.1.data y.2.1.data ||
    (x.2.1 = y.2.1 && dateLtB x.2.2 y.2.2)))

/-- The non-strict order `sorted` effectively sorts by. -/
def recLeB (x y : Record) : Bool :=
  !recLtB y x

/-- The non-strict record order as a relation. -/
def recLe (x y : Record) : Prop :=
  recLeB x y = true

instance : DecidableRel recLe := fun x y => by
  unfold recLe; infer_instance

/-- `sorted(items)`: a stable sort by the records' natural tuple order
(Python's Timsort and insertion sort agree on every input, both being
stable sorts by the same total preorder). -/
def sortedRecords (items : List Record) : List Record :=
  List.insertionSort recLe items

/-- The `"=" * len(title)` underline. -/
def eqLine (title : String) : String :=
  String.mk (List.replicate title.length '=')

/-- One row of `print_list`:
`f"{i:3d}. {date_str} {pk_str:50} {desc_str}"`. -/
def renderRow (i : Nat) (r : Record) : String :=
  padNum3 i ++ ". " ++
  (BColors.OKCYAN ++ strftimeDMY r.2.2 ++ BColors.ENDC) ++ " " ++
  padTo50 (BColors.BOLD ++ BColors.OKGREEN ++ r.1 ++ BColors.ENDC) ++ " " ++
  r.2.1

/-- `print_list(title, items)`: header, then either `"(none)"` for an empty
sequence, or the sorted records rendered 1-indexed followed by the total
line.  The result is the list of printed lines. -/
def print_list (title : String) (items : List Record) : List String :=
  ["", title, eqLine title] ++
  (if items.isEmpty then ["(none)"]
   else
     (List.enumFrom 1 (sortedRecords items)).map (fun p => renderRow p.1 p.2) ++
     ["", "Total: " ++ toString items.length])

/-- The environment a whole run of `main()` interacts with. -/
structure Env where
  pacmanOnPath : Bool
  expacOnPath : Bool
  qqen : CompletedProcess
  qqem : CompletedProcess
  qqtd : CompletedProcess
  enterEOF : Bool
  confirmAns : Option String
  euid : Nat
  sudoPath : Option String
  removal : CompletedProcess

/-- The bare `input(...)` pause: `EOFError` propagates uncaught. -/
def pressEnter (eof : Bool) : PResult Unit :=
  if eof then ⟨[], 0, Except.error PyExit.uncaught⟩ else ⟨[], 0, Except.ok ()⟩

/-- `main()`. -/
def mainE (env : Env) : PResult Unit := do
  ensure_arch_like env.pacmanOnPath env.expacOnPath
  emit ["Checking pacman package database...", ""]
  let (native, foreign) ← list_explicit_packages env.qqen env.qqem
  emit (print_list "Explicitly installed packages (native repositories)" native)
  emit (print_list "Explicitly installed packages (AUR/foreign)" foreign)
  pressEnter env.enterEOF
  let orphans ← list_orphans env.qqtd
  emit (print_list "Orphan packages (unrequired dependencies)" orphans)
  if orphans.isEmpty then
    emit ["", "Nothing to clean. Your system has no orphans, congratulations."]
  else if confirm env.confirmAns then
    remove_orphans env.euid env.sudoPath env.removal (orphans.map (fun r => r.1))
  else
    emit ["", "No removal performed."]

/-- The `if __name__ == "__main__"` wrapper: `KeyboardInterrupt` is caught,
a friendly message is printed and the interpreter exits 0; `SystemExit(c)`
propagates as status `c`; any other uncaught exception makes the
interpreter exit 1.  Returns (exit status, extra printed lines). -/
def main_guard (r : Except PyExit Unit) : Nat × List String :=
  match r with
  | Except.ok _ => (0, [])
  | Except.error (PyExit.sysExit c) => (c, [])
  | Except.error PyExit.uncaught => (1, [])
  | Except.error PyExit.interrupt => (0, ["", "Interrupted by user."])

/-- A whole process run: final exit status and everything printed. -/
def entryPoint (env : Env) : Nat × List String :=
  let m := mainE env
  let g := main_guard m.res
  (g.1, m.out ++ g.2)

/-- `fail` only ever calls `sys.exit(1)`: the property that every
`SystemExit` raised inside a computation carries code 1. -/
def OnlyExit1 {α : Type} (x : PResult α) : Prop :=
  ∀ c, x.res = Except.error (PyExit.sysExit c) → c = 1

/-! ### Helper lemmas about the embedded orders and string helpers -/

theorem strLtB_irrefl (l : List Char) : strLtB l l = false := by
  induction l with
  | nil => rfl
  | cons a as ih => simp [strLtB, ih]

theorem strLtB_trans {a b c : List Char} (hab : strLtB a b = true)
    (hbc : strLtB b c = true) : strLtB a c = true := by
  induction a generalizing b c with
  | nil =>
    cases b with
    | nil => simp [strLtB] at hab
    | cons b bs =>
      cases c with
      | nil => simp [strLtB] at hbc
      | cons c cs => rfl
  | cons a as ih =>
    cases b with
    | nil => simp [strLtB] at hab
    | cons b bs =>
      cases c with
      | nil => simp [strLtB] at hbc
      | cons c cs =>
        simp only [strLtB, Bool.or_eq_true, Bool.and_eq_true,
          decide_eq_true_eq] at hab hbc ⊢
        rcases hab with h1 | ⟨he1, h1⟩ <;> rcases hbc with h2 | ⟨he2, h2⟩
        · exact Or.inl (lt_trans h1 h2)
        · exact Or.inl (he2 ▸ h1)
        · exact Or.inl (he1 ▸ h2)
        · exact Or.inr ⟨he1.trans he2, ih h1 h2⟩

theorem strLtB_connex {a b : List Char} (hab : strLtB a b = false)
    (hba : strLtB b a = false) : a = b := by
  induction a generalizing b with
  | nil =>
    cases b with
    | nil => rfl
    | cons b bs => simp [strLtB] at hab
  | cons a as ih =>
    cases b with
    | nil => simp [strLtB] at hba
    | cons b bs =>
      simp only [strLtB, Bool.or_eq_false_iff, Bool.and_eq_false_iff,
        decide_eq_false_iff_not, not_lt] at hab hba
      obtain ⟨hle1, h1⟩ := hab
      obtain ⟨hle2, h2⟩ := hba
      have heq : a = b := le_antisymm hle2 hle1
      subst heq
      have h1' : strLtB as bs = false := by
        rcases h1 with h | h
        · simp at h
        · exact h
      have h2' : strLtB bs as = false := by
        rcases h2 with h | h
        · simp at h
        · exact h
      rw [ih h1' h2']

theorem dateLtB_irrefl (d : Date) : dateLtB d d = false := by
  simp [dateLtB]

theorem dateLtB_trans {a b c : Date} (h1 : dateLtB a b = true)
    (h2 : dateLtB b c = true) : dateLtB a c = true := by
  simp only [dateLtB, Bool.or_eq_true, Bool.and_eq_true,
    decide_eq_true_eq] at h1 h2 ⊢
  omega

theorem dateLtB_connex {a b : Date} (h1 : dateLtB a b = false)
    (h2 : dateLtB b a = false) : a = b := by
  cases a with
  | mk y1 m1 d1 =>
    cases b with
    | mk y2 m2 d2 =>
      simp only [dateLtB, Bool.or_eq_false_iff, Bool.and_eq_false_iff,
        decide_eq_false_iff_not, not_lt] at h1 h2
      simp only [Date.mk.injEq]
      omega

theorem recLtB_irrefl (x : Record) : recLtB x x = false := by
  simp [recLtB, strLtB_irrefl, dateLtB_irrefl]

theorem recLtB_trans {x y z : Record} (h1 : recLtB x y = true)
    (h2 : recLtB y z = true) : recLtB x z = true := by
  simp only [recLtB, Bool.or_eq_true, Bool.and_eq_true,
    decide_eq_true_eq] at h1 h2 ⊢
  rcases h1 with h1 | ⟨e1, h1⟩ <;> rcases h2 with h2 | ⟨e2, h2⟩
  · exact Or.inl (strLtB_trans h1 h2)
  · exact Or.inl (e2 ▸ h1)
  · exact Or.inl (e1 ▸ h2)
  · refine Or.inr ⟨e1.trans e2, ?_⟩
    rcases h1 with h1 | ⟨f1, h1⟩ <;> rcases h2 with h2 | ⟨f2, h2⟩
    · exact Or.inl (strLtB_trans h1 h2)
    · exact Or.inl (f2 ▸ h1)
    · exact Or.inl (f1 ▸ h2)
    · exact Or.inr ⟨f1.trans f2, dateLtB_trans h1 h2⟩

theorem recLtB_connex {x y : Record} (h1 : recLtB x y = false)
    (h2 : recLtB y x = false) : x = y := by
  obtain ⟨xn, xd, xt⟩ := x
  obtain ⟨yn, yd, yt⟩ := y
  simp only [recLtB, Bool.or_eq_false_iff, Bool.and_eq_false_iff,
    decide_eq_false_iff_not] at h1 h2
  obtain ⟨hs1, h1⟩ := h1
  obtain ⟨hs2, h2⟩ := h2
  have hn : xn = yn := String.ext (strLtB_connex hs1 hs2)
  subst hn
  obtain ⟨hd1, h1''⟩ := h1.resolve_left (by simp)
  obtain ⟨hd2, h2''⟩ := h2.resolve_left (by simp)
  have hd : xd = yd := String.ext (strLtB_connex hd1 hd2)
  subst hd
  have h1t := h1''.resolve_left (by simp)
  have h2t := h2''.resolve_left (by simp)
  have ht : xt = yt := dateLtB_connex h1t h2t
  rw [ht]

theorem recLtB_asymm {x y : Record} (h1 : recLtB x y = true) :
    recLtB y x = false := by
  by_contra h
  have h2 : recLtB y x = true := by
    cases hc : recLtB y x
    · exact absurd hc h
    · rfl
  have := recLtB_trans h1 h2
  rw [recLtB_irrefl] at this
  cases this

theorem recLe_trans : ∀ x y z : Record, recLe x y → recLe y z → recLe x z := by
  intro x y z hxy hyz
  unfold recLe recLeB at hxy hyz ⊢
  simp only [Bool.not_eq_true'] at hxy hyz ⊢
  by_contra h
  have hzx : recLtB z x = true := by
    cases hc : recLtB z x
    · exact absurd hc h
    · rfl
  cases hc : recLtB x y
  · have heq : x = y := recLtB_connex hc hxy
    subst heq
    rw [hzx] at hyz
    cases hyz
  · have := recLtB_trans hzx hc
    rw [this] at hyz
    cases hyz

theorem recLe_total : ∀ x y : Record, recLe x y ∨ recLe y x := by
  intro x y
  unfold recLe recLeB
  simp only [Bool.not_eq_true']
  cases hc : recLtB y x
  · exact Or.inl rfl
  · exact Or.inr (recLtB_asymm hc)

theorem bind_eval {α β : Type} (out : List String) (n : Nat) (a : α)
    (f : α → PResult β) :
    (PResult.mk out n (Except.ok a) >>= f) =
      ⟨out ++ (f a).out, n + (f a).spawns, (f a).res⟩ := rfl

theorem bind_eval_error {α β : Type} (out : List String) (n : Nat) (e : PyExit)
    (f : α → PResult β) :
    (PResult.mk out n (Except.error e) >>= f) = ⟨out, n, Except.error e⟩ := rfl

theorem res_bind_ok {α β : Type} {x : PResult α} {f : α → PResult β} {a : α}
    (h : x.res = Except.ok a) : (x >>= f).res = (f a).res := by
  show (PResult.bind x f).res = (f a).res
  unfold PResult.bind
  rw [h]

theorem res_bind_error {α β : Type} {x : PResult α} {f : α → PResult β}
    {e : PyExit} (h : x.res = Except.error e) :
    (x >>= f).res = Except.error e := by
  show (PResult.bind x f).res = Except.error e
  unfold PResult.bind
  rw [h]

theorem run_ok (cmd : String) (r : CompletedProcess) (h : r.returncode = 0) :
    run cmd r = ⟨[], 1, Except.ok r⟩ := by
  unfold run
  rw [if_neg (by simp [h])]

theorem run_fail (cmd : String) (r : CompletedProcess) (h : r.returncode ≠ 0) :
    run cmd r =
      ⟨[pyStrip r.stderr, failMsg ("command failed: " ++ spaceJoinChars cmd)], 1,
        Except.error (PyExit.sysExit 1)⟩ := by
  unfold run
  rw [if_pos h]

theorem splitSemiAux_length (l : List Char) : ∀ cur : List Char,
    (splitSemiAux cur l).length = l.count ';' + 1 := by
  induction l with
  | nil => intro cur; rfl
  | cons c cs ih =>
    intro cur
    by_cases h : c = ';'
    · subst h
      simp [splitSemiAux, ih, List.count_cons]
    · simp [splitSemiAux, h, ih, List.count_cons]

theorem pySplit_length (s : String) :
    (pySplit s).length = s.data.count ';' + 1 :=
  splitSemiAux_length s.data []

theorem lstripL_all_space {l : List Char} (h : ∀ c ∈ l, isPySpace c = true) :
    lstripL l = [] := by
  unfold lstripL
  exact List.dropWhile_eq_nil_iff.mpr h

theorem parseAll_whitespace (s : String)
    (h : ∀ c ∈ s.data, isPySpace c = true) :
    parseAll s = ⟨[], 0, Except.ok []⟩ := by
  have hstrip : pyStrip s = "" := by
    unfold pyStrip pyStripL
    rw [lstripL_all_space h]
    rfl
  unfold parseAll
  rw [hstrip]
  rfl

theorem lstripL_append_all {a : List Char} (b : List Char)
    (h : ∀ c ∈ a, isPySpace c = true) : lstripL (a ++ b) = lstripL b := by
  unfold lstripL
  rw [List.dropWhile_append]
  simp [List.dropWhile_eq_nil_iff.mpr h]

theorem rstripL_append_all (a : List Char) {b : List Char}
    (h : ∀ c ∈ b, isPySpace c = true) : rstripL (a ++ b) = rstripL a := by
  unfold rstripL
  rw [List.reverse_append, List.dropWhile_append]
  simp [List.dropWhile_eq_nil_iff.mpr
    (fun c hc => h c (List.mem_reverse.mp hc))]

theorem pyStripL_pad (ws1 ws2 s : List Char)
    (h1 : ∀ c ∈ ws1, isPySpace c = true)
    (h2 : ∀ c ∈ ws2, isPySpace c = true) :
    pyStripL (ws1 ++ s ++ ws2) = pyStripL s := by
  unfold pyStripL
  rw [List.append_assoc, lstripL_append_all (s ++ ws2) h1]
  show rstripL (lstripL (s ++ ws2)) = rstripL (lstripL s)
  unfold lstripL
  rw [List.dropWhile_append]
  by_cases hs : (s.dropWhile isPySpace).isEmpty
  · rw [if_pos hs]
    rw [List.dropWhile_eq_nil_iff.mpr h2]
    rw [List.isEmpty_iff.mp hs]
  · rw [if_neg hs]
    exact rstripL_append_all _ h2

theorem onlyExit1_bind {α β : Type} {x : PResult α} {f : α → PResult β}
    (hx : OnlyExit1 x) (hf : ∀ a, OnlyExit1 (f a)) : OnlyExit1 (x >>= f) := by
  obtain ⟨out, n, res⟩ := x
  cases res with
  | error e =>
    intro c h
    have h' : (Except.error e : Except PyExit β) =
        Except.error (PyExit.sysExit c) := h
    injection h' with h''
    exact hx c (by rw [h''])
  | ok a => exact fun c h => hf a c h

theorem onlyExit1_ite {α : Type} (b : Prop) [Decidable b] {x y : PResult α}
    (hx : OnlyExit1 x) (hy : OnlyExit1 y) : OnlyExit1 (if b then x else y) := by
  by_cases hb : b
  · rwa [if_pos hb]
  · rwa [if_neg hb]

theorem onlyExit1_okRes {α : Type} (out : List String) (n : Nat) (a : α) :
    OnlyExit1 (⟨out, n, Except.ok a⟩ : PResult α) := by
  intro c h
  have h' : (Except.ok a : Except PyExit α) = Except.error (PyExit.sysExit c) := h
  exact nomatch h'

theorem onlyExit1_fail1 {α : Type} (out : List String) (n : Nat) :
    OnlyExit1 (⟨out, n, Except.error (PyExit.sysExit 1)⟩ : PResult α) := by
  intro c h
  have h' : (Except.error (PyExit.sysExit 1) : Except PyExit α) =
      Except.error (PyExit.sysExit c) := h
  injection h' with h''
  injection h'' with h3
  exact h3.symm

theorem onlyExit1_uncaughtRes {α : Type} (out : List String) (n : Nat) :
    OnlyExit1 (⟨out, n, Except.error PyExit.uncaught⟩ : PResult α) := by
  intro c h
  have h' : (Except.error PyExit.uncaught : Except PyExit α) =
      Except.error (PyExit.sysExit c) := h
  injection h' with h''
  exact nomatch h''

theorem onlyExit1_pure {α : Type} (a : α) :
    OnlyExit1 (pure (f := PResult) a) :=
  onlyExit1_okRes [] 0 a

theorem onlyExit1_emit (ls : List String) : OnlyExit1 (emit ls) :=
  onlyExit1_okRes ls 0 ()

theorem onlyExit1_run (cmd : String) (r : CompletedProcess) :
    OnlyExit1 (run cmd r) := by
  unfold run
  apply onlyExit1_ite
  · exact onlyExit1_fail1 _ _
  · exact onlyExit1_okRes _ _ _

theorem onlyExit1_parseAll (s : String) : OnlyExit1 (parseAll s) := by
  unfold parseAll
  split
  · exact onlyExit1_okRes _ _ _
  · exact onlyExit1_uncaughtRes _ _

theorem onlyExit1_ensure (p e : Bool) : OnlyExit1 (ensure_arch_like p e) := by
  unfold ensure_arch_like
  apply onlyExit1_ite
  · exact onlyExit1_fail1 _ _
  · apply onlyExit1_ite
    · exact onlyExit1_fail1 _ _
    · exact onlyExit1_okRes _ _ _

theorem onlyExit1_pressEnter (b : Bool) : OnlyExit1 (pressEnter b) := by
  unfold pressEnter
  apply onlyExit1_ite
  · exact onlyExit1_uncaughtRes _ _
  · exact onlyExit1_okRes _ _ _

theorem onlyExit1_lep (rn rf : CompletedProcess) :
    OnlyExit1 (list_explicit_packages rn rf) := by
  unfold list_explicit_packages
  apply onlyExit1_bind (onlyExit1_run _ _)
  intro pn
  apply onlyExit1_bind (onlyExit1_parseAll _)
  intro native
  apply onlyExit1_bind (onlyExit1_run _ _)
  intro pf
  apply onlyExit1_bind (onlyExit1_parseAll _)
  intro foreign
  exact onlyExit1_pure _

theorem onlyExit1_list_orphans (r : CompletedProcess) :
    OnlyExit1 (list_orphans r) := by
  unfold list_orphans
  apply onlyExit1_bind (onlyExit1_run _ _)
  intro proc
  apply onlyExit1_ite
  · exact onlyExit1_pure _
  · exact onlyExit1_parseAll _

theorem onlyExit1_remove (euid : Nat) (sp : Option String)
    (removal : CompletedProcess) (pkgs : List String) :
    OnlyExit1 (remove_orphans euid sp removal pkgs) := by
  unfold remove_orphans
  apply onlyExit1_ite
  · exact onlyExit1_emit _
  · apply onlyExit1_bind
    · apply onlyExit1_ite
      · cases sp with
        | some p => exact onlyExit1_pure _
        | none => exact onlyExit1_fail1 _ _
      · exact onlyExit1_pure _
    · intro cmd
      apply onlyExit1_bind (onlyExit1_emit _)
      intro u
      apply onlyExit1_bind (onlyExit1_run _ _)
      intro v
      exact onlyExit1_pure _

theorem mainE_onlyExit1 (env : Env) : OnlyExit1 (mainE env) := by
  unfold mainE
  apply onlyExit1_bind (onlyExit1_ensure _ _)
  intro u1
  apply onlyExit1_bind (onlyExit1_emit _)
  intro u2
  apply onlyExit1_bind (onlyExit1_lep _ _)
  intro p
  obtain ⟨native, foreign⟩ := p
  apply onlyExit1_bind (onlyExit1_emit _)
  intro u3
  apply onlyExit1_bind (onlyExit1_emit _)
  intro u4
  apply onlyExit1_bind (onlyExit1_pressEnter _)
  intro u5
  apply onlyExit1_bind (onlyExit1_list_orphans _)
  intro orphans
  apply onlyExit1_bind (onlyExit1_emit _)
  intro u6
  apply onlyExit1_ite
  · exact onlyExit1_emit _
  · apply onlyExit1_ite
    · exact onlyExit1_remove _ _ _ _
    · exact onlyExit1_emit _

/-! ### Claim theorems -/

/-- C1: claimed behaviour is that a non-zero exit of the orphan-listing
query makes `list_orphans` return an empty result sequence.  The code
instead terminates the process with status 1: `run` is invoked with
`check=True`, so the `CalledProcessError` handler calls `fail` (and thus
`sys.exit(1)`) before the `proc.returncode != 0` test in `list_orphans`
can ever see a non-zero code.  This theorem evaluates the embedded code
at such a failing input. -/
theorem C1_orphan_query_nonzero_exit (r : CompletedProcess)
    (h : r.returncode ≠ 0) :
    (list_orphans r).res = Except.error (PyExit.sysExit 1) ∧
    ∀ l : List Record, (list_orphans r).res ≠ Except.ok l := by
  have hres : (list_orphans r).res = Except.error (PyExit.sysExit 1) := by
    unfold list_orphans
    exact res_bind_error (by rw [run_fail "pacman -Qqtd" r h])
  refine ⟨hres, fun l hc => ?_⟩
  rw [hres] at hc
  exact nomatch hc

/-- Witness for C1 at a concrete failing subprocess outcome. -/
theorem C1_witness :
    (list_orphans ⟨1, "", "error: no targets"⟩).res =
      Except.error (PyExit.sysExit 1) :=
  (C1_orphan_query_nonzero_exit ⟨1, "", "error: no targets"⟩ (by decide)).1

/-- C2 counterexample: on the empty record sequence `print_list` prints
no total count line at all — its output is exactly header plus "(none)",
and no printed line starts with "Total:". -/
theorem C2_counterexample :
    print_list "Orphan packages" [] =
      ["", "Orphan packages", "===============", "(none)"] ∧
    ∀ l ∈ print_list "Orphan packages" [],
      l.data.take 6 ≠ ['T', 'o', 't', 'a', 'l', ':'] := by
  constructor
  · decide
  · decide

/-- C2 (amended): for every non-empty sequence of N records the output of
`print_list` ends with the line `Total: N`; for the empty sequence it ends
with "(none)" and contains no total line. -/
theorem C2_total_line :
    (∀ (title : String) (items : List Record), items ≠ [] →
      (print_list title items).getLast? =
        some ("Total: " ++ toString items.length)) ∧
    (∀ title : String, (print_list title []).getLast? = some "(none)") := by
  constructor
  · intro title items hne
    have h : print_list title items =
        (["", title, eqLine title] ++
          (List.enumFrom 1 (sortedRecords items)).map
            (fun p => renderRow p.1 p.2) ++ [""]) ++
          ["Total: " ++ toString items.length] := by
      unfold print_list
      rw [if_neg (fun hh => hne (List.isEmpty_iff.mp hh))]
      simp [List.append_assoc]
    rw [h, List.getLast?_concat]
  · intro title
    unfold print_list
    rw [if_pos (show ([] : List Record).isEmpty = true from rfl)]
    exact List.getLast?_concat _

/-- Witness for C2 at a concrete one-record input. -/
theorem C2_witness :
    (print_list "T" [("a", "", ⟨2020, 1, 1⟩)]).getLast? =
      some ("Total: " ++ toString (1 : Nat)) :=
  C2_total_line.1 "T" [("a", "", ⟨2020, 1, 1⟩)] (by decide)

/-- C3: `print_list` presents the records 1-indexed in full-tuple
lexicographic ascending order (name, then description, then date): the
presented sequence `sortedRecords items` is a permutation of the input,
is pairwise ordered by the record order, and the non-empty output renders
exactly that sequence enumerated from 1; the spec's concrete example
sorts a before b. -/
theorem C3_sorted_presentation :
    ∀ (title : String) (items : List Record),
      (sortedRecords items).Perm items ∧
      (sortedRecords items).Pairwise recLe ∧
      (items ≠ [] → print_list title items =
        ["", title, eqLine title] ++
        (List.enumFrom 1 (sortedRecords items)).map
          (fun p => renderRow p.1 p.2) ++
        ["", "Total: " ++ toString items.length]) ∧
      sortedRecords [("b", "", ⟨2020, 1, 1⟩), ("a", "", ⟨2021, 1, 1⟩)] =
        [("a", "", ⟨2021, 1, 1⟩), ("b", "", ⟨2020, 1, 1⟩)] := by
  intro title items
  refine ⟨List.perm_insertionSort recLe items, ?_, ?_, by decide⟩
  · haveI : IsTrans Record recLe := ⟨recLe_trans⟩
    haveI : IsTotal Record recLe := ⟨recLe_total⟩
    exact List.sorted_insertionSort recLe items
  · intro hne
    unfold print_list
    rw [if_neg (fun hh => hne (List.isEmpty_iff.mp hh))]
    simp [List.append_assoc]

/-- Witness for C3 at the spec's two-record example. -/
theorem C3_witness :
    print_list "T" [("b", "", ⟨2020, 1, 1⟩), ("a", "", ⟨2021, 1, 1⟩)] =
      ["", "T", eqLine "T"] ++
      (List.enumFrom 1
        (sortedRecords [("b", "", ⟨2020, 1, 1⟩), ("a", "", ⟨2021, 1, 1⟩)])).map
        (fun p => renderRow p.1 p.2) ++
      ["", "Total: " ++ toString (2 : Nat)] :=
  (C3_sorted_presentation "T"
    [("b", "", ⟨2020, 1, 1⟩), ("a", "", ⟨2021, 1, 1⟩)]).2.2.1 (by decide)

/-- C4 counterexample: the single letter "o" is accepted as an
affirmative answer, so `confirm` does not return false on every input
other than y/Y/yes/oui. -/
theorem C4_counterexample : confirm (some "o") = true := by decide

/-- C4 (amended): `confirm` returns true exactly when the stripped,
lowercased input is one of "y", "yes", "o", "oui" — so it accepts "y",
"Y", "yes", "oui" and additionally "o"/"O" — and returns false for every
other input, including "", "n", "no", "maybe", and end-of-input. -/
theorem C4_confirm_answers :
    confirm none = false ∧
    (∀ s : String, confirm (some s) =
      (["y", "yes", "o", "oui"].contains (pyLower (pyStrip s)))) ∧
    confirm (some "y") = true ∧ confirm (some "Y") = true ∧
    confirm (some "yes") = true ∧ confirm (some "oui") = true ∧
    confirm (some "o") = true ∧ confirm (some "O") = true ∧
    confirm (some "") = false ∧ confirm (some "n") = false ∧
    confirm (some "no") = false ∧ confirm (some "maybe") = false := by
  refine ⟨rfl, fun s => rfl, ?_, ?_, ?_, ?_, ?_, ?_, ?_, ?_, ?_, ?_⟩ <;> decide

/-- C5: `to_obj` succeeds exactly when the line contains exactly two
semicolon delimiters and the third field parses as an ISO calendar date;
on success it returns precisely the three fields with the parsed date,
and on every other line it returns a parse error. -/
theorem C5_to_obj_characterization :
    (∀ line : String,
      (∃ r, to_obj line = Except.ok r) ↔
        (line.data.count ';' = 2 ∧
          (fromisoformat ((pySplit line).getD 2 "")).isSome = true)) ∧
    (∀ (line pk desc : String) (dt : Date),
      to_obj line = Except.ok (pk, desc, dt) →
        ∃ ds, pySplit line = [pk, desc, ds] ∧ fromisoformat ds = some dt) := by
  constructor
  · intro line
    have hlen := pySplit_length line
    rcases hsp : pySplit line with _ | ⟨a, _ | ⟨b, _ | ⟨c, _ | ⟨d, tl⟩⟩⟩⟩ <;>
      rw [hsp] at hlen <;>
      unfold to_obj <;>
      rw [hsp]
    · simp at hlen
    · constructor
      · rintro ⟨r, hr⟩
        exact nomatch hr
      · rintro ⟨hc, _⟩
        simp at hlen
        omega
    · constructor
      · rintro ⟨r, hr⟩
        exact nomatch hr
      · rintro ⟨hc, _⟩
        simp at hlen
        omega
    · simp only [List.length_cons, List.length_nil] at hlen
      simp only [show ([a, b, c].getD 2 "") = c from rfl]
      rcases hf : fromisoformat c with _ | dt
      · simp [hf]
      · simp [hf]
        omega
    · constructor
      · rintro ⟨r, hr⟩
        exact nomatch hr
      · rintro ⟨hc, _⟩
        simp at hlen
        omega
  · intro line pk desc dt h
    unfold to_obj at h
    split at h
    · next pk2 desc2 d2 heq =>
        split at h
        · next dt2 hf =>
            injection h with h1
            injection h1 with ha h1
            injection h1 with hb hc
            subst ha
            subst hb
            subst hc
            exact ⟨d2, heq, hf⟩
        · next hf => exact nomatch h
    · next heq2 => exact nomatch h

/-- Witness for C5 at a concrete well-formed line. -/
theorem C5_witness :
    ∃ ds, pySplit "git;vcs;2022-03-01" = ["git", "vcs", ds] ∧
      fromisoformat ds = some ⟨2022, 3, 1⟩ :=
  C5_to_obj_characterization.2 "git;vcs;2022-03-01" "git" "vcs" ⟨2022, 3, 1⟩
    (by decide)

/-- C6: the process exits 0 on normal completion (shown in general and at
a concrete no-orphans run and a concrete declined-removal run), every
`sys.exit` raised by `main` carries code 1 and yields process status 1
(fatal preconditions and subprocess failures shown concretely), and a
`KeyboardInterrupt` is answered by the friendly message alone with
status 0. -/
theorem C6_exit_status_discipline :
    (∀ env : Env, (mainE env).res = Except.ok () → (entryPoint env).1 = 0) ∧
    (∀ (env : Env) (c : Nat),
      (mainE env).res = Except.error (PyExit.sysExit c) →
        c = 1 ∧ (entryPoint env).1 = 1) ∧
    ((mainE ⟨true, true, ⟨0, "", ""⟩, ⟨0, "", ""⟩, ⟨0, "", ""⟩, false, none,
        0, none, ⟨0, "", ""⟩⟩).res = Except.ok () ∧
      (entryPoint ⟨true, true, ⟨0, "", ""⟩, ⟨0, "", ""⟩, ⟨0, "", ""⟩, false,
        none, 0, none, ⟨0, "", ""⟩⟩).1 = 0) ∧
    ((mainE ⟨true, true, ⟨0, "git;vcs;2022-03-01\n", ""⟩, ⟨0, "", ""⟩,
        ⟨0, "lib-old;;2019-05-05\n", ""⟩, false, some "n", 1000,
        some "/usr/bin/sudo", ⟨0, "", ""⟩⟩).res = Except.ok () ∧
      (entryPoint ⟨true, true, ⟨0, "git;vcs;2022-03-01\n", ""⟩, ⟨0, "", ""⟩,
        ⟨0, "lib-old;;2019-05-05\n", ""⟩, false, some "n", 1000,
        some "/usr/bin/sudo", ⟨0, "", ""⟩⟩).1 = 0) ∧
    (entryPoint ⟨false, true, ⟨0, "", ""⟩, ⟨0, "", ""⟩, ⟨0, "", ""⟩, false,
      none, 0, none, ⟨0, "", ""⟩⟩).1 = 1 ∧
    (entryPoint ⟨true, true, ⟨2, "", "error: could not lock database"⟩,
      ⟨0, "", ""⟩, ⟨0, "", ""⟩, false, none, 0, none, ⟨0, "", ""⟩⟩).1 = 1 ∧
    main_guard (Except.error PyExit.interrupt) =
      (0, ["", "Interrupted by user."]) := by
  refine ⟨?_, ?_, by decide, by decide, by decide, by decide, rfl⟩
  · intro env h
    show (main_guard (mainE env).res).1 = 0
    rw [h]
    rfl
  · intro env c h
    have hc := mainE_onlyExit1 env c h
    subst hc
    refine ⟨rfl, ?_⟩
    show (main_guard (mainE env).res).1 = 1
    rw [h]
    rfl

/-- Witness for C6: normal completion at a concrete environment yields
process status 0. -/
theorem C6_witness :
    (entryPoint ⟨true, true, ⟨0, "", ""⟩, ⟨0, "", ""⟩, ⟨0, "", ""⟩, false,
      none, 0, none, ⟨0, "", ""⟩⟩).1 = 0 :=
  C6_exit_status_discipline.1 _ (by decide)

/-- C7: `remove_orphans` on an empty package-name list spawns no
subprocess, prints the informational message, and returns successfully. -/
theorem C7_remove_empty_noop :
    ∀ (euid : Nat) (sp : Option String) (removal : CompletedProcess),
      remove_orphans euid sp removal [] =
        ⟨["No orphan packages to remove."], 0, Except.ok ()⟩ := by
  intro euid sp removal
  rfl

/-- C8: `print_list` on the empty record sequence prints exactly the
header and the literal "(none)" — no per-item rows. -/
theorem C8_print_list_empty :
    ∀ title : String,
      print_list title [] = ["", title, eqLine title, "(none)"] ∧
      "(none)" ∈ print_list title [] := by
  intro title
  have h : print_list title [] = ["", title, eqLine title, "(none)"] := by
    unfold print_list
    rw [if_pos (show ([] : List Record).isEmpty = true from rfl)]
    rfl
  exact ⟨h, by rw [h]; simp⟩

/-- C9: when a query subprocess succeeds with whitespace-only (or empty)
stdout, the stripped output splits into no lines at all, so
`list_explicit_packages` and `list_orphans` return empty record lists and
the record parser is never invoked. -/
theorem C9_blank_query_output :
    ∀ rn rf rt : CompletedProcess,
      rn.returncode = 0 → rf.returncode = 0 → rt.returncode = 0 →
      (∀ c ∈ rn.stdout.data, isPySpace c = true) →
      (∀ c ∈ rf.stdout.data, isPySpace c = true) →
      (∀ c ∈ rt.stdout.data, isPySpace c = true) →
      (list_explicit_packages rn rf).res = Except.ok ([], []) ∧
      (list_orphans rt).res = Except.ok [] := by
  intro rn rf rt h1 h2 h3 w1 w2 w3
  have e1 : (run "pacman -Qqen" rn).res = Except.ok rn := by
    rw [run_ok "pacman -Qqen" rn h1]
  have e2 : (run "pacman -Qqem" rf).res = Except.ok rf := by
    rw [run_ok "pacman -Qqem" rf h2]
  have e3 : (run "pacman -Qqtd" rt).res = Except.ok rt := by
    rw [run_ok "pacman -Qqtd" rt h3]
  have p1 : (parseAll rn.stdout).res = Except.ok [] := by
    rw [parseAll_whitespace rn.stdout w1]
  have p2 : (parseAll rf.stdout).res = Except.ok [] := by
    rw [parseAll_whitespace rf.stdout w2]
  constructor
  · unfold list_explicit_packages
    rw [res_bind_ok e1, res_bind_ok p1, res_bind_ok e2, res_bind_ok p2]
    rfl
  · unfold list_orphans
    rw [res_bind_ok e3]
    rw [if_neg (by simp [h3])]
    rw [parseAll_whitespace rt.stdout w3]

/-- Witness for C9 at concrete whitespace-only query outputs. -/
theorem C9_witness :
    (list_explicit_packages ⟨0, " \n\t", ""⟩ ⟨0, "", ""⟩).res =
      Except.ok ([], []) ∧
    (list_orphans ⟨0, "  \n", ""⟩).res = Except.ok [] :=
  C9_blank_query_output ⟨0, " \n\t", ""⟩ ⟨0, "", ""⟩ ⟨0, "  \n", ""⟩
    (by decide) (by decide) (by decide) (by decide) (by decide) (by decide)

/-- C10: `confirm` accepts exactly the inputs whose whitespace-stripped,
lowercased form is one of "y", "yes", "o", "oui"; in particular the bare
letter "o" is affirmative, and leading/trailing whitespace never changes
the answer. -/
theorem C10_confirm_normalization :
    (∀ s : String, confirm (some s) = true ↔
      pyLower (pyStrip s) ∈ ["y", "yes", "o", "oui"]) ∧
    confirm (some "o") = true ∧ confirm (some " o ") = true ∧
    (∀ ws1 ws2 s : List Char,
      (∀ c ∈ ws1, isPySpace c = true) → (∀ c ∈ ws2, isPySpace c = true) →
      confirm (some (String.mk (ws1 ++ s ++ ws2))) =
        confirm (some (String.mk s))) := by
  refine ⟨?_, by decide, by decide, ?_⟩
  · intro s
    show (["y", "yes", "o", "oui"].contains (pyLower (pyStrip s)) = true) ↔ _
    simp [List.contains, List.elem_iff]
  · intro ws1 ws2 s h1 h2
    show (["y", "yes", "o", "oui"].contains
        (pyLower (pyStrip (String.mk (ws1 ++ s ++ ws2))))) =
      (["y", "yes", "o", "oui"].contains (pyLower (pyStrip (String.mk s))))
    unfold pyStrip
    rw [show (String.mk (ws1 ++ s ++ ws2)).data = ws1 ++ s ++ ws2 from rfl,
      show (String.mk s).data = s from rfl, pyStripL_pad ws1 ws2 s h1 h2]

/-- Witness for C10: padding "o" with whitespace leaves the answer
unchanged. -/
theorem C10_witness :
    confirm (some (String.mk ([' ', '\t'] ++ ['o'] ++ ['\n']))) =
      confirm (some (String.mk ['o'])) :=
  C10_confirm_normalization.2.2.2 [' ', '\t'] ['\n'] ['o']
    (by decide) (by decide)

end ArchCleaner
